import Mathlib

/-!
# Verification of `rod`'s browser control core (`browser.go`)

A shallow embedding of the `Browser` type and its operations from
`src/browser.go`, together with theorems settling the frozen claims.

Modelling choices:
* Go `context.Context` values become a tree (`Ctx`): `background` plus
  `child parent uid` nodes, where `uid` identifies the cancel function
  created by `context.WithCancel` / `context.WithTimeout`.  A set of
  explicitly cancelled uids determines which contexts are done:
  a context is done iff some node on its ancestor chain (itself included)
  was explicitly cancelled.  This captures Go's downward-only propagation.
* `kit.JSONResult` / `cdp.Object` values become a small `JSON` type with
  the accessors the source uses (`Get`, `String()`, `Array()`).
* The CDP client (`lib/cdp`, an external collaborator) is a parameter:
  an `Endpoint σ` answers each request from an endpoint state `σ`.
  Operations additionally return the list of control requests they issued.
* Go methods on `*Browser` that mutate the receiver return the updated
  receiver explicitly; `Context`/`Timeout` return the pair
  (receiver after the call, returned Browser).
-/

namespace Rod

/-- A minimal JSON value type standing for `kit.JSONResult` / `cdp.Object`. -/
inductive JSON where
  | null : JSON
  | bool (b : Bool) : JSON
  | str (s : String) : JSON
  | num (n : Int) : JSON
  | arr (elems : List JSON) : JSON
  | obj (fields : List (String × JSON)) : JSON

/-- `gjson`-style field access: `j.Get(key)` on an object returns the first
binding of `key`, and `null` on anything else or a missing key. -/
def JSON.get (j : JSON) (key : String) : JSON :=
  match j with
  | .obj fields => lookupField fields key
  | _ => .null
where
  lookupField : List (String × JSON) → String → JSON
    | [], _ => .null
    | (k, v) :: rest, key => if k = key then v else lookupField rest key

/-- `gjson`-style `.String()`: the underlying string for a string value,
`""` otherwise (sufficient for how the source uses it). -/
def JSON.asString : JSON → String
  | .str s => s
  | _ => ""

/-- `gjson`-style `.Array()`: the elements of an array value, `[]` otherwise. -/
def JSON.asArray : JSON → List JSON
  | .arr elems => elems
  | _ => []

/-- A Go `context.Context`: the background root, or a child scope created by
`context.WithCancel` / `context.WithTimeout`, tagged with the uid of its
cancel function. -/
inductive Ctx where
  | background : Ctx
  | child (parent : Ctx) (uid : Nat) : Ctx
deriving DecidableEq, Repr

/-- The cancel-function uids appearing on a context's ancestor chain. -/
def Ctx.ids : Ctx → List Nat
  | .background => []
  | .child p uid => uid :: p.ids

/-- `ctx.Done()` has fired: some scope on the ancestor chain (the context
itself included) was explicitly cancelled.  `cancelled` is the set of
uids whose cancel function has been invoked (or whose deadline passed). -/
def Ctx.done (cancelled : List Nat) : Ctx → Bool
  | .background => false
  | .child p uid => cancelled.contains uid || p.done cancelled

/-- Error outcomes visible at the `Browser` boundary. -/
inductive Err where
  | cancellation : Err
  | connection (msg : String) : Err
  | remote (msg : String) : Err
  | connect (msg : String) : Err
deriving DecidableEq, Repr

/-- A CDP request: `cdp.Request{Method, Params}`. -/
structure Request where
  method : String
  params : List (String × JSON)

/-- A CDP event: `cdp.Event{Method, Params}`. -/
structure Event where
  method : String
  params : JSON

/-- The remote endpoint together with the transport (`lib/cdp`, external):
given a request and the endpoint's state, produce the outcome and the new
state. -/
def Endpoint (σ : Type) := Request → σ → Except Err JSON × σ

/-- The `Browser` struct of `browser.go`.  `client` and `event` are the ids
of the attached `cdp.Client` and `kit.Observable` (their internals are
external collaborators); `close` and `timeoutCancel` hold the uid of the
corresponding cancel function, `none` standing for Go `nil`. -/
structure Browser where
  controlURL : String
  viewport : Option JSON
  slowmotion : Nat
  trace : Bool
  ctx : Option Ctx
  timeoutCancel : Option Nat
  close : Option Nat
  client : Option Nat
  event : Option Nat

/-- `New()` creates a controller with zero-valued fields. -/
def Browser.new : Browser :=
  { controlURL := "", viewport := none, slowmotion := 0, trace := false,
    ctx := none, timeoutCancel := none, close := none, client := none,
    event := none }

/-- `ControlURL` fluent setter: mutates the receiver and returns it. -/
def Browser.ControlURL (b : Browser) (url : String) : Browser :=
  { b with controlURL := url }

/-- `Viewport` fluent setter: mutates the receiver and returns it. -/
def Browser.Viewport (b : Browser) (opts : Option JSON) : Browser :=
  { b with viewport := opts }

/-- `Slowmotion` fluent setter: mutates the receiver and returns it. -/
def Browser.Slowmotion (b : Browser) (delay : Nat) : Browser :=
  { b with slowmotion := delay }

/-- `Trace` fluent setter: mutates the receiver and returns it. -/
def Browser.Trace (b : Browser) (enable : Bool) : Browser :=
  { b with trace := enable }

/-- `Context(ctx)`: `newObj := *b; newObj.ctx = ctx; return &newObj`.
Returns (receiver after the call, returned clone): the receiver is
untouched, the clone is a structural copy with only `ctx` replaced. -/
def Browser.Context (b : Browser) (ctx : Ctx) : Browser × Browser :=
  (b, { b with ctx := some ctx })

/-- `Timeout(d)`: `ctx, cancel := context.WithTimeout(b.ctx, d);
b.timeoutCancel = cancel; return b.Context(ctx)`.  The fresh cancel
function is modelled by `uid`; the assignment to `b.timeoutCancel`
mutates the receiver before the clone is taken.  On a browser with no
active scope `context.WithTimeout(nil, d)` panics *before* that
assignment, modelled by `none`; otherwise the result is the pair
(receiver after the call, returned clone). -/
def Browser.Timeout (b : Browser) (d : Nat) (uid : Nat) :
    Option (Browser × Browser) :=
  match b.ctx with
  | none => none
  | some c =>
    let _ := d
    let ctx := Ctx.child c uid
    let b' := { b with timeoutCancel := some uid }
    some (b'.Context ctx)

/-- The `Page` struct (only the parts `browser.go` constructs are needed:
the Session context it was created under and its `TargetID`; the mouse
and keyboard handles carry no state of their own). -/
structure Page where
  ctx : Option Ctx
  TargetID : String

/-- Modelled from the spec: `Page.initSession` lives in a file outside
`src/`.  Per the spec, attachment occurs once at construction, and the
scenario for create-page lists exactly a create-target call followed by
a navigate call, so establishing the per-target session issues no
browser-level control call and succeeds for a fresh target. -/
def Page.initSession (p : Page) : Except Err Page :=
  .ok p

/-- `Browser.page(targetID)`: builds the `Page` bound to the browser's
current context and attaches it via `initSession`. -/
def Browser.page (b : Browser) (targetID : String) : Except Err Page :=
  let page : Page := { ctx := b.ctx, TargetID := targetID }
  page.initSession

/-- `Browser.Call(req)`: applies slowmotion (a pure delay, no visible
effect in the model) and forwards the request to the client with the
browser's context.  The endpoint is the external collaborator. -/
def Browser.Call (b : Browser) (ep : Endpoint σ) (req : Request) (s : σ) :
    Except Err JSON × σ :=
  let _ := b.slowmotion
  ep req s

/-- The create-target request `PageE` issues (note the fixed
`about:blank` url in its params). -/
def createTargetRequest : Request :=
  ⟨"Target.createTarget", [("url", .str "about:blank")]⟩

/-- Modelled from the spec: `Page.NavigateE` lives in a file outside
`src/`.  The spec says create-page "navigates it to `url`" with a
navigate call targeting the page's TargetID, so the request carries the
target id and the destination url. -/
def navigateRequest (targetID url : String) : Request :=
  ⟨"Page.navigate", [("targetId", .str targetID), ("url", .str url)]⟩

/-- `Browser.PageE(url)`: create a target, build the page for the
returned target id, navigate it to `url`.  Besides the result and the
endpoint's new state, the issued control requests are returned in
order. -/
def Browser.PageE (b : Browser) (ep : Endpoint σ) (url : String) (s : σ) :
    Except Err Page × σ × List Request :=
  match b.Call ep createTargetRequest s with
  | (.error e, s₁) => (.error e, s₁, [createTargetRequest])
  | (.ok target, s₁) =>
    match b.page ((target.get "targetId").asString) with
    | .error e => (.error e, s₁, [createTargetRequest])
    | .ok page =>
      let nav := navigateRequest page.TargetID url
      match b.Call ep nav s₁ with
      | (.error e, s₂) => (.error e, s₂, [createTargetRequest, nav])
      | (.ok _, s₂) => (.ok page, s₂, [createTargetRequest, nav])

/-- The list-targets request `PagesE` issues. -/
def getTargetsRequest : Request :=
  ⟨"Target.getTargets", []⟩

/-- The loop body of `PagesE`: walk the `targetInfos` array in order,
skip entries whose `type` is not `"page"`, build a page handle for each
match, aborting on the first page-construction error. -/
def Browser.pagesOf (b : Browser) : List JSON → Except Err (List Page)
  | [] => .ok []
  | t :: rest =>
    if (t.get "type").asString ≠ "page" then b.pagesOf rest
    else
      match b.page ((t.get "targetId").asString) with
      | .error e => .error e
      | .ok page =>
        match b.pagesOf rest with
        | .error e => .error e
        | .ok pages => .ok (page :: pages)

/-- `Browser.PagesE()`: query all targets, filter to `"page"`-typed
targets, return one handle per match (in the listed order). -/
def Browser.PagesE (b : Browser) (ep : Endpoint σ) (s : σ) :
    Except Err (List Page) × σ × List Request :=
  match b.Call ep getTargetsRequest s with
  | (.error e, s₁) => (.error e, s₁, [getTargetsRequest])
  | (.ok list, s₁) =>
    (b.pagesOf ((list.get "targetInfos").asArray), s₁, [getTargetsRequest])

/-- The browser-level close request `CloseE` issues. -/
def closeRequest : Request :=
  ⟨"Browser.close", []⟩

/-- `Browser.CloseE()`: issue `Browser.close`; on failure return the
error as-is (without cancelling anything); on success invoke the root
cancel function when one exists (`b.close != nil`) and return `nil`.
`cancelled` is the global set of invoked cancel uids. -/
def Browser.CloseE (b : Browser) (ep : Endpoint σ) (s : σ)
    (cancelled : List Nat) :
    Except Err Unit × σ × List Nat × List Request :=
  match b.Call ep closeRequest s with
  | (.error e, s₁) => (.error e, s₁, cancelled, [closeRequest])
  | (.ok _, s₁) =>
    let cancelled' :=
      match b.close with
      | some uid => uid :: cancelled
      | none => cancelled
    (.ok (), s₁, cancelled', [closeRequest])

/-- One step of the world while a registered wait is pending: either the
event bus publishes an event to the waiter, or the wait's cancel
function (the one `WaitEventE` returned, cancelling the child context)
is invoked. -/
inductive Step where
  | publish (e : Event) : Step
  | cancel : Step

/-- The resolution of the goroutine
`b.Event().Until(ctx, fun e => event = e; return filter(event))` under a
schedule of steps.  `inspected` is the current value of the captured
`event` variable (the last event handed to the filter — note the source
assigns it *before* testing the filter).  The outcome is `none` while
the wait is still blocked, and `some (event, err)` once it resolves:
on a matching publish `err` is `nil`; on cancellation `err` is the
context's cancellation error and `event` keeps its last value.  Steps
after resolution are not consumed: the registration is released. -/
def runWait (filter : Event → Bool) (inspected : Option Event) :
    List Step → Option (Option Event × Option Err)
  | [] => none
  | .publish e :: rest =>
    if filter e then some (some e, none)
    else runWait filter (some e) rest
  | .cancel :: _ => some (inspected, some .cancellation)

/-- `Browser.WaitEventE(filter)`: derives a child context from `b.ctx`
(`uid` models its fresh cancel function), spawns the waiting goroutine,
and returns the deferred wait accessor together with the cancel handle
(derived context uid).  The accessor maps a schedule of steps to the
wait's resolution. -/
def Browser.WaitEventE (b : Browser) (filter : Event → Bool) (uid : Nat) :
    (List Step → Option (Option Event × Option Err)) × Nat :=
  let _ := Ctx.child (b.ctx.getD Ctx.background) uid
  (runWait filter none, uid)

/-- Modelled from the spec: the `Method` filter constructor lives in a
file outside `src/`; the spec offers registration by method name, so
`Method name` matches exactly the events whose method equals `name`. -/
def Method (name : String) : Event → Bool :=
  fun e => e.method == name

/-- The outcome of a convenience (abort-on-failure) wrapper: the
explicit form's success value, or an abort carrying the error `kit.E`
panicked with. -/
inductive ConvOutcome (α : Type) where
  | value (v : α) : ConvOutcome α
  | abort (e : Err) : ConvOutcome α

/-- `kit.E(err)`-style conversion: success value or process abort. -/
def kitE : Except Err α → ConvOutcome α
  | .ok v => .value v
  | .error e => .abort e

/-- External collaborators consulted by `ConnectE`: the websocket-url
probe and the launcher (`lib/launcher`), plus `cdp.New` and the
endpoint behind the resulting client. -/
structure ConnectEnv (σ : Type) where
  getWSURL : String → Except Err String
  launch : Except Err String
  cdpNew : Option Ctx → String → Except Err Nat
  ep : Endpoint σ

/-- The enable-discovery request `initEvents` issues. -/
def setDiscoverRequest : Request :=
  ⟨"Target.setDiscoverTargets", [("discover", .bool true)]⟩

/-- `Browser.initEvents()`: installs a fresh observable (the fan-out
goroutine draining `client.Event()` is concurrency outside the model)
and issues the single `Target.setDiscoverTargets {discover: true}`
call, returning its error. -/
def Browser.initEvents (b : Browser) (ep : Endpoint σ) (s : σ) :
    Except Err Browser × σ × List Request :=
  let b₁ := { b with event := some 0 }
  match b₁.Call ep setDiscoverRequest s with
  | (.error e, s₁) => (.error e, s₁, [setDiscoverRequest])
  | (.ok _, s₁) => (.ok b₁, s₁, [setDiscoverRequest])

/-- The result of `ConnectE`: the outcome (updated browser on success),
the endpoint state, the control calls issued, and whether the external
launcher was invoked. -/
structure ConnectResult (σ : Type) where
  res : Except Err Browser
  state : σ
  calls : List Request
  usedLauncher : Bool

/-- The tail of `ConnectE` after the control URL is resolved: establish
the client via `cdp.New` and run `initEvents`. -/
def Browser.connectRest (b : Browser) (env : ConnectEnv σ) (s : σ)
    (used : Bool) : ConnectResult σ :=
  match env.cdpNew b.ctx b.controlURL with
  | .error e => ⟨.error e, s, [], used⟩
  | .ok c =>
    let b₁ := { b with client := some c }
    match b₁.initEvents env.ep s with
    | (.ok b₂, s₁, calls) => ⟨.ok b₂, s₁, calls, used⟩
    | (.error e, s₁, calls) => ⟨.error e, s₁, calls, used⟩

/-- The first step of `ConnectE`: when no context is set yet, create the
root scope with `context.WithCancel(context.Background())`, storing its
cancel function (`uid`) in `b.close`. -/
def Browser.withRootScope (b : Browser) (uid : Nat) : Browser :=
  if b.ctx.isNone then
    { b with ctx := some (Ctx.child .background uid), close := some uid }
  else b

/-- `Browser.ConnectE()`: if no context is set, create the root scope
(`uid` models its cancel function, stored in `b.close`); probe the
supplied control URL and fall back to launching a browser when the
probe fails; then connect the client and initialise events. -/
def Browser.ConnectE (b : Browser) (env : ConnectEnv σ) (uid : Nat)
    (s : σ) : ConnectResult σ :=
  let b₁ := b.withRootScope uid
  match env.getWSURL b₁.controlURL with
  | .ok _ => b₁.connectRest env s false
  | .error _ =>
    match env.launch with
    | .error e => ⟨.error e, s, [], true⟩
    | .ok u => Browser.connectRest { b₁ with controlURL := u } env s true

/-- `Browser.Connect()`: convenience form of `ConnectE`; aborts on
failure, otherwise returns the (updated) receiver. -/
def Browser.Connect (b : Browser) (env : ConnectEnv σ) (uid : Nat)
    (s : σ) : ConvOutcome Browser × σ × List Request × Bool :=
  let r := b.ConnectE env uid s
  (kitE r.res, r.state, r.calls, r.usedLauncher)

/-- `Browser.Close()`: convenience form of `CloseE`. -/
def Browser.Close (b : Browser) (ep : Endpoint σ) (s : σ)
    (cancelled : List Nat) :
    ConvOutcome Unit × σ × List Nat × List Request :=
  match b.CloseE ep s cancelled with
  | (r, s₁, cancelled', calls) => (kitE r, s₁, cancelled', calls)

/-- `Browser.Page(url)`: convenience form of `PageE`. -/
def Browser.Page (b : Browser) (ep : Endpoint σ) (url : String) (s : σ) :
    ConvOutcome Page × σ × List Request :=
  match b.PageE ep url s with
  | (r, s₁, calls) => (kitE r, s₁, calls)

/-- `Browser.Pages()`: convenience form of `PagesE`. -/
def Browser.Pages (b : Browser) (ep : Endpoint σ) (s : σ) :
    ConvOutcome (List Rod.Page) × σ × List Request :=
  match b.PagesE ep s with
  | (r, s₁, calls) => (kitE r, s₁, calls)

/-- `Browser.WaitEvent(name)`: convenience form of `WaitEventE` with the
`Method name` filter; the returned wait aborts on a wait error and
otherwise yields the event. -/
def Browser.WaitEvent (b : Browser) (name : String) (uid : Nat) :
    (List Step → Option (ConvOutcome (Option Event))) × Nat :=
  match b.WaitEventE (Method name) uid with
  | (w, c) =>
    (fun sched =>
      (w sched).map fun r =>
        match r.2 with
        | some e => .abort e
        | none => .value r.1, c)

/-! ## Concrete stub endpoint (for scenario instances and witnesses) -/

/-- The state of the stub endpoint: the allocated targets, as
(targetId, type) pairs, in allocation order. -/
abbrev StubState := List (String × String)

/-- The JSON encoding of one entry of the `targetInfos` array. -/
def encodeTargetInfo (t : String × String) : JSON :=
  .obj [("targetId", .str t.1), ("type", .str t.2)]

/-- A stub endpoint in the spirit of the spec's test scenario: it answers
create-target with TargetID `"T1"` (recording the new target), lists the
recorded targets on `Target.getTargets`, accepts or rejects navigation
according to `navOK`, and accepts everything else. -/
def stubEndpoint (navOK : Bool) : Endpoint StubState := fun req s =>
  if req.method = "Target.createTarget" then
    (.ok (.obj [("targetId", .str "T1")]), s ++ [("T1", "page")])
  else if req.method = "Target.getTargets" then
    (.ok (.obj [("targetInfos", .arr (s.map encodeTargetInfo))]), s)
  else if req.method = "Page.navigate" then
    (if navOK then (.ok .null, s) else (.error (.remote "nav rejected"), s))
  else (.ok .null, s)

/-- The value of the captured `event` variable after the waiter has
inspected a prefix of the schedule: the last published event, or the
starting value when nothing was published. -/
def lastInspected (acc : Option Event) : List Step → Option Event
  | [] => acc
  | .publish e :: rest => lastInspected (some e) rest
  | .cancel :: rest => lastInspected acc rest

/-! ## Helper lemmas -/

/-- Cancelling a uid that does not occur on a context's ancestor chain
leaves that context's done-status unchanged. -/
theorem Ctx.done_cons_fresh (c : Ctx) (uid : Nat) (cancelled : List Nat)
    (h : uid ∉ c.ids) :
    Ctx.done (uid :: cancelled) c = Ctx.done cancelled c := by
  induction c with
  | background => rfl
  | child p u ih =>
    simp only [Ctx.ids, List.mem_cons, not_or] at h
    have hu : u ≠ uid := fun hu => h.1 hu.symm
    simp [Ctx.done, ih h.2, List.contains_cons, hu]

/-! ### C1: mutation behaviour of `Context` and `Timeout` -/

/-- C1 (counterexample): at a browser with an active scope — where
`Timeout` actually completes — the claim says it leaves every field of
the original browser unchanged, but the source assigns
`b.timeoutCancel = cancel` on the receiver itself before taking the
clone: after `.Timeout 5 7` the receiver's `timeoutCancel` field has
changed. -/
theorem timeout_mutates_receiver :
    (({ Browser.new with
        ctx := some (Ctx.child .background 0) } : Browser).Timeout 5 7).map
      Prod.fst ≠
      some { Browser.new with ctx := some (Ctx.child .background 0) } := by
  intro h
  simp only [Browser.Timeout, Browser.Context, Option.map_some'] at h
  have h' := congrArg Browser.timeoutCancel (Option.some.inj h)
  simp [Browser.new] at h'

/-- C1 (amended): for a browser with an active scope, `Context` returns
a structural copy with only `ctx` replaced, sharing the client, and
leaves the receiver untouched; `Timeout` completes and returns such a
copy (with `ctx` and `timeoutCancel` replaced) sharing the client, but
mutates the original browser's `timeoutCancel` field — every *other*
field of the original is unchanged.  (With no active scope `Timeout`
panics in `context.WithTimeout` before any mutation.) -/
theorem context_copies_timeout_mutates_timeoutCancel (b : Browser)
    (c ctx : Ctx) (d uid : Nat) (hctx : b.ctx = some c) :
    (b.Context ctx).1 = b ∧
    (b.Context ctx).2 = { b with ctx := some ctx } ∧
    (b.Context ctx).2.client = b.client ∧
    b.Timeout d uid =
      some ({ b with timeoutCancel := some uid },
            { b with ctx := some (Ctx.child c uid), timeoutCancel := some uid }) ∧
    (b.Timeout d uid).map (fun r => r.2.client) = some b.client := by
  refine ⟨rfl, rfl, rfl, ?_, ?_⟩ <;>
    · unfold Browser.Timeout
      rw [hctx]
      rfl

/-- Witness for `context_copies_timeout_mutates_timeoutCancel` at a
concrete browser with an active scope. -/
theorem context_copies_timeout_mutates_timeoutCancel_witness :
    ({ Browser.new with
        ctx := some (Ctx.child .background 0) } : Browser).Timeout 5 7 =
      some ({ Browser.new with ctx := some (Ctx.child .background 0), timeoutCancel := some 7 },
            { Browser.new with ctx := some (Ctx.child (Ctx.child .background 0) 7), timeoutCancel := some 7 }) :=
  (context_copies_timeout_mutates_timeoutCancel
    { Browser.new with ctx := some (Ctx.child .background 0) }
    (Ctx.child .background 0) .background 5 7 rfl).2.2.2.1

/-! ### C2: cancellation propagation between parent and derived scope -/

/-- C2 (counterexample): `Context` accepts an arbitrary context, so the
caller can pass the parent's own scope.  Concretely, for the browser
whose scope is `Ctx.child background 0` derived via
`Context (Ctx.child background 0)`, the derived browser's scope is that
same context, and invoking the cancel function of the derived scope
(uid 0) makes the parent's scope done — cancelling the derived scope
*does* cancel the parent, refuting downward-only propagation for
`Context`. -/
theorem context_cancel_reaches_parent :
    (({ Browser.new with
        ctx := some (Ctx.child .background 0) }).Context
          (Ctx.child .background 0)).2.ctx =
      some (Ctx.child .background 0) ∧
    Ctx.done [] (Ctx.child .background 0) = false ∧
    Ctx.done [0] (Ctx.child .background 0) = true :=
  ⟨rfl, rfl, rfl⟩

/-- C2 (amended): the claimed propagation holds for `Timeout`, and for
`Context` when the supplied context is a genuine child of the
browser's scope: with `b.ctx = some c` and a fresh cancel uid, the
derived scope is `Ctx.child c uid`; cancelling the derived scope alone
leaves the parent's done-status unchanged, while once the parent's
scope is done every scope derived from it is done. -/
theorem derived_scope_cancellation (b : Browser) (c : Ctx) (d uid : Nat)
    (cancelled : List Nat) (hctx : b.ctx = some c) (hfresh : uid ∉ c.ids) :
    (b.Timeout d uid).map (fun r => r.2.ctx) = some (some (Ctx.child c uid)) ∧
    (b.Context (Ctx.child c uid)).2.ctx = some (Ctx.child c uid) ∧
    Ctx.done (uid :: cancelled) c = Ctx.done cancelled c ∧
    (Ctx.done cancelled c = true →
      Ctx.done cancelled (Ctx.child c uid) = true) := by
  refine ⟨?_, rfl, Ctx.done_cons_fresh c uid cancelled hfresh, ?_⟩
  · simp [Browser.Timeout, Browser.Context, hctx]
  · intro h
    simp [Ctx.done, h]

/-- Witness for `derived_scope_cancellation` at a concrete browser. -/
theorem derived_scope_cancellation_witness :
    ({ Browser.new with
        ctx := some (Ctx.child .background 0) }).ctx =
      some (Ctx.child .background 0) ∧
    (1 : Nat) ∉ (Ctx.child .background 0).ids ∧
    Ctx.done [1, 0] (Ctx.child .background 0) = Ctx.done [0] (Ctx.child .background 0) := by
  refine ⟨rfl, by decide, ?_⟩
  exact (derived_scope_cancellation
    { Browser.new with ctx := some (Ctx.child .background 0) }
    (Ctx.child .background 0) 5 1 [0] rfl (by decide)).2.2.1

/-- Walking an encoded `targetInfos` array builds exactly one page per
`"page"`-typed entry, in order. -/
theorem Browser.pagesOf_encode (b : Browser) (ts : List (String × String)) :
    b.pagesOf (ts.map encodeTargetInfo) =
      .ok ((ts.filter (fun t => t.2 == "page")).map
        (fun t => { ctx := b.ctx, TargetID := t.1 })) := by
  induction ts with
  | nil => rfl
  | cons t rest ih =>
    by_cases h : t.2 = "page"
    · simp [Browser.pagesOf, encodeTargetInfo, JSON.get, JSON.get.lookupField,
        JSON.asString, h, ih, Browser.page, Page.initSession, List.filter_cons]
    · simp [Browser.pagesOf, encodeTargetInfo, JSON.get, JSON.get.lookupField,
        JSON.asString, h, ih, List.filter_cons]

/-! ### C3: `PageE` issues create-target then navigate -/

/-- C3: when the endpoint answers create-target with TargetID `"T1"` and
accepts the navigate call, `PageE url` issues exactly one
`Target.createTarget` call followed by one navigate call addressed to
`"T1"`, and returns (with nil error) a page whose `TargetID` is
`"T1"`. -/
theorem pageE_create_then_navigate {σ : Type} (b : Browser)
    (ep : Endpoint σ) (url : String) (s s₁ s₂ : σ) (j j' : JSON)
    (hcreate : ep createTargetRequest s = (.ok j, s₁))
    (htid : (j.get "targetId").asString = "T1")
    (hnav : ep (navigateRequest "T1" url) s₁ = (.ok j', s₂)) :
    b.PageE ep url s =
      (.ok { ctx := b.ctx, TargetID := "T1" }, s₂,
       [createTargetRequest, navigateRequest "T1" url]) := by
  unfold Browser.PageE Browser.Call
  rw [hcreate]
  simp [Browser.page, Page.initSession, htid, hnav]

/-- Witness for `pageE_create_then_navigate` against the stub endpoint. -/
theorem pageE_create_then_navigate_witness :
    Browser.new.PageE (stubEndpoint true) "https://example.com" [] =
      (.ok { ctx := none, TargetID := "T1" }, [("T1", "page")],
       [createTargetRequest, navigateRequest "T1" "https://example.com"]) :=
  pageE_create_then_navigate Browser.new (stubEndpoint true)
    "https://example.com" [] [("T1", "page")] [("T1", "page")]
    (.obj [("targetId", .str "T1")]) .null rfl rfl rfl

/-! ### C4: navigate failure after create is non-atomic -/

/-- C4: if create-target succeeds and the navigate call fails, `PageE`
returns a nil page with the navigate error, its trace is exactly the
create and navigate calls (no target-destroying or cleanup call), and —
against the stub endpoint that rejects navigation — the created target
is still listed by a subsequent `PagesE`. -/
theorem pageE_navigate_failure_leaves_target {σ : Type} (b : Browser)
    (ep : Endpoint σ) (url : String) (s s₁ s₂ : σ) (j : JSON) (e : Err)
    (hcreate : ep createTargetRequest s = (.ok j, s₁))
    (hnav : ep (navigateRequest ((j.get "targetId").asString) url) s₁ =
      (.error e, s₂)) :
    b.PageE ep url s = (.error e, s₂,
      [createTargetRequest, navigateRequest ((j.get "targetId").asString) url]) ∧
    (∀ r ∈ (b.PageE ep url s).2.2,
      r.method = "Target.createTarget" ∨ r.method = "Page.navigate") ∧
    (∀ s₀ : StubState, ∀ url' : String, ∃ ps : List Page,
      (Browser.new.PagesE (stubEndpoint false)
        ((Browser.new.PageE (stubEndpoint false) url' s₀).2.1)).1 = .ok ps ∧
      ∃ p ∈ ps, p.TargetID = "T1") := by
  have hmain : b.PageE ep url s = (.error e, s₂,
      [createTargetRequest, navigateRequest ((j.get "targetId").asString) url]) := by
    unfold Browser.PageE Browser.Call
    rw [hcreate]
    simp [Browser.page, Page.initSession, hnav]
  refine ⟨hmain, ?_, ?_⟩
  · intro r hr
    rw [hmain] at hr
    simp only [List.mem_cons, List.not_mem_nil, or_false] at hr
    rcases hr with rfl | rfl
    · exact .inl rfl
    · exact .inr rfl
  · intro s₀ url'
    have hstate : (Browser.new.PageE (stubEndpoint false) url' s₀).2.1 =
        s₀ ++ [("T1", "page")] := by
      unfold Browser.PageE Browser.Call stubEndpoint
      simp [Browser.page, Page.initSession, createTargetRequest,
        navigateRequest, JSON.get, JSON.get.lookupField, JSON.asString]
    refine ⟨((s₀ ++ [("T1", "page")]).filter (fun t => t.2 == "page")).map
        (fun t => { ctx := Browser.new.ctx, TargetID := t.1 }), ?_, ?_⟩
    · rw [hstate]
      unfold Browser.PagesE Browser.Call stubEndpoint
      simpa [getTargetsRequest, JSON.get, JSON.get.lookupField, JSON.asArray]
        using Browser.pagesOf_encode Browser.new (s₀ ++ [("T1", "page")])
    · refine ⟨{ ctx := Browser.new.ctx, TargetID := "T1" }, ?_, rfl⟩
      exact List.mem_map.mpr ⟨("T1", "page"),
        List.mem_filter.mpr ⟨List.mem_append_right _ (by simp), by simp⟩, rfl⟩

/-- Witness for `pageE_navigate_failure_leaves_target` against the
navigation-rejecting stub endpoint. -/
theorem pageE_navigate_failure_leaves_target_witness :
    Browser.new.PageE (stubEndpoint false) "https://example.com" [] =
      (.error (.remote "nav rejected"), [("T1", "page")],
       [createTargetRequest, navigateRequest "T1" "https://example.com"]) :=
  (pageE_navigate_failure_leaves_target Browser.new (stubEndpoint false)
    "https://example.com" [] [("T1", "page")] [("T1", "page")]
    (.obj [("targetId", .str "T1")]) (.remote "nav rejected") rfl rfl).1

/-! ### C5: `CloseE` closes then cancels, surfacing failures -/

/-- C5: `CloseE` issues the `Browser.close` control call; on success it
invokes the root scope's cancel function and returns nil, on failure it
returns the close error unmodified and cancels nothing. -/
theorem closeE_close_then_cancel {σ : Type} (b : Browser)
    (ep : Endpoint σ) (s : σ) (cancelled : List Nat) (u : Nat)
    (hclose : b.close = some u) :
    (∀ j s₁, ep closeRequest s = (.ok j, s₁) →
      b.CloseE ep s cancelled = (.ok (), s₁, u :: cancelled, [closeRequest])) ∧
    (∀ e s₁, ep closeRequest s = (.error e, s₁) →
      b.CloseE ep s cancelled = (.error e, s₁, cancelled, [closeRequest])) := by
  constructor
  · intro j s₁ h
    unfold Browser.CloseE Browser.Call
    rw [h, hclose]
  · intro e s₁ h
    unfold Browser.CloseE Browser.Call
    rw [h]

/-- Witness for `closeE_close_then_cancel` at a concrete browser. -/
theorem closeE_close_then_cancel_witness :
    ({ Browser.new with close := some 0 } : Browser).CloseE
        (stubEndpoint true) [] [] =
      (.ok (), [], [0], [closeRequest]) :=
  (closeE_close_then_cancel { Browser.new with close := some 0 }
    (stubEndpoint true) [] [] 0 rfl).1 .null [] rfl

/-! ### C6: `PagesE` returns one page per `"page"`-typed target -/

/-- C6: when the list-targets call succeeds, `PagesE` returns one page
handle per target whose `type` is `"page"`, in the listed order, and no
handle for targets of any other type. -/
theorem pagesE_one_page_per_page_target {σ : Type} (b : Browser)
    (ep : Endpoint σ) (s s₁ : σ) (j : JSON) (ts : List (String × String))
    (hcall : ep getTargetsRequest s = (.ok j, s₁))
    (hinfos : j.get "targetInfos" = .arr (ts.map encodeTargetInfo)) :
    b.PagesE ep s =
      (.ok ((ts.filter (fun t => t.2 == "page")).map
        (fun t => { ctx := b.ctx, TargetID := t.1 })), s₁, [getTargetsRequest]) := by
  unfold Browser.PagesE Browser.Call
  rw [hcall]
  simp [hinfos, JSON.asArray, Browser.pagesOf_encode]

/-- Witness for `pagesE_one_page_per_page_target` against the stub
endpoint listing one page target and one non-page target. -/
theorem pagesE_one_page_per_page_target_witness :
    Browser.new.PagesE (stubEndpoint true) [("T1", "page"), ("X", "browser")] =
      (.ok [{ ctx := none, TargetID := "T1" }],
       [("T1", "page"), ("X", "browser")], [getTargetsRequest]) := by
  have h := pagesE_one_page_per_page_target Browser.new (stubEndpoint true)
    [("T1", "page"), ("X", "browser")] [("T1", "page"), ("X", "browser")]
    (.obj [("targetInfos",
      .arr ([("T1", "page"), ("X", "browser")].map encodeTargetInfo))])
    [("T1", "page"), ("X", "browser")] rfl rfl
  simpa using h

/-! ### C7: `ConnectE` endpoint resolution and initial discovery call -/

/-- Creating the root scope does not touch the control URL. -/
theorem Browser.withRootScope_controlURL (b : Browser) (uid : Nat) :
    (b.withRootScope uid).controlURL = b.controlURL := by
  unfold Browser.withRootScope
  split <;> rfl

/-- `connectRest` reports exactly the launcher-usage flag it was given. -/
theorem Browser.connectRest_usedLauncher {σ : Type} (b : Browser)
    (env : ConnectEnv σ) (s : σ) (used : Bool) :
    (b.connectRest env s used).usedLauncher = used := by
  unfold Browser.connectRest Browser.initEvents Browser.Call
  rcases hc : env.cdpNew b.ctx b.controlURL with e | c
  · rfl
  · rcases hp : env.ep setDiscoverRequest s with ⟨r, s₁⟩
    rcases r with e | jd <;> simp

/-- A failing `cdp.New` aborts `connectRest` with that error and no
control call issued. -/
theorem Browser.connectRest_cdpNew_error {σ : Type} (b : Browser)
    (env : ConnectEnv σ) (s : σ) (used : Bool) (e : Err)
    (hc : env.cdpNew b.ctx b.controlURL = .error e) :
    b.connectRest env s used = ⟨.error e, s, [], used⟩ := by
  unfold Browser.connectRest
  rw [hc]

/-- A failing discovery call aborts `connectRest` with that error, the
single discovery request having been issued. -/
theorem Browser.connectRest_discover_error {σ : Type} (b : Browser)
    (env : ConnectEnv σ) (s : σ) (used : Bool) (c : Nat) (e : Err) (s₁ : σ)
    (hc : env.cdpNew b.ctx b.controlURL = .ok c)
    (hp : env.ep setDiscoverRequest s = (.error e, s₁)) :
    b.connectRest env s used = ⟨.error e, s₁, [setDiscoverRequest], used⟩ := by
  unfold Browser.connectRest Browser.initEvents Browser.Call
  rw [hc]
  simp [hp]

/-- When both `cdp.New` and the discovery call succeed, `connectRest`
succeeds, having issued exactly the one discovery request, and the
resulting browser carries the client and the fresh observable. -/
theorem Browser.connectRest_success {σ : Type} (b : Browser)
    (env : ConnectEnv σ) (s : σ) (used : Bool) (c : Nat) (jd : JSON) (s₁ : σ)
    (hc : env.cdpNew b.ctx b.controlURL = .ok c)
    (hp : env.ep setDiscoverRequest s = (.ok jd, s₁)) :
    b.connectRest env s used =
      ⟨.ok { b with client := some c, event := some 0 }, s₁,
       [setDiscoverRequest], used⟩ := by
  unfold Browser.connectRest Browser.initEvents Browser.Call
  rw [hc]
  simp [hp]

/-- C7: `ConnectE` reuses the supplied control endpoint when the probe
accepts it and invokes the launcher exactly when the probe fails; it
issues exactly one enable-discovery control call once the connection is
established; it succeeds only when every step succeeds, and surfaces
the error of whichever step fails. -/
theorem connectE_resolution_and_discovery {σ : Type} (b : Browser)
    (env : ConnectEnv σ) (uid : Nat) (s : σ) :
    ((∃ u, env.getWSURL b.controlURL = .ok u) →
      (b.ConnectE env uid s).usedLauncher = false) ∧
    ((∃ e, env.getWSURL b.controlURL = .error e) →
      (b.ConnectE env uid s).usedLauncher = true) ∧
    (∀ b', (b.ConnectE env uid s).res = .ok b' →
      (b.ConnectE env uid s).calls = [setDiscoverRequest]) ∧
    (∀ e eu, env.getWSURL b.controlURL = .error e → env.launch = .error eu →
      (b.ConnectE env uid s).res = .error eu) ∧
    (∀ u ec, env.getWSURL b.controlURL = .ok u →
      env.cdpNew (b.withRootScope uid).ctx b.controlURL = .error ec →
      (b.ConnectE env uid s).res = .error ec) ∧
    (∀ e u ec, env.getWSURL b.controlURL = .error e → env.launch = .ok u →
      env.cdpNew (b.withRootScope uid).ctx u = .error ec →
      (b.ConnectE env uid s).res = .error ec) ∧
    (∀ u c ed s₁, env.getWSURL b.controlURL = .ok u →
      env.cdpNew (b.withRootScope uid).ctx b.controlURL = .ok c →
      env.ep setDiscoverRequest s = (.error ed, s₁) →
      (b.ConnectE env uid s).res = .error ed) ∧
    (∀ e u c ed s₁, env.getWSURL b.controlURL = .error e → env.launch = .ok u →
      env.cdpNew (b.withRootScope uid).ctx u = .ok c →
      env.ep setDiscoverRequest s = (.error ed, s₁) →
      (b.ConnectE env uid s).res = .error ed) ∧
    (∀ u c jd s₁, env.getWSURL b.controlURL = .ok u →
      env.cdpNew (b.withRootScope uid).ctx b.controlURL = .ok c →
      env.ep setDiscoverRequest s = (.ok jd, s₁) →
      (b.ConnectE env uid s).res =
        .ok { b.withRootScope uid with client := some c, event := some 0 }) ∧
    (∀ e u c jd s₁, env.getWSURL b.controlURL = .error e → env.launch = .ok u →
      env.cdpNew (b.withRootScope uid).ctx u = .ok c →
      env.ep setDiscoverRequest s = (.ok jd, s₁) →
      (b.ConnectE env uid s).res =
        .ok { b.withRootScope uid with
              controlURL := u, client := some c, event := some 0 }) := by
  refine ⟨?_, ?_, ?_, ?_, ?_, ?_, ?_, ?_, ?_, ?_⟩
  · rintro ⟨u, hu⟩
    simp only [Browser.ConnectE, Browser.withRootScope_controlURL, hu]
    exact Browser.connectRest_usedLauncher _ env s false
  · rintro ⟨e, he⟩
    simp only [Browser.ConnectE, Browser.withRootScope_controlURL, he]
    rcases hl : env.launch with el | ul
    · rfl
    · exact Browser.connectRest_usedLauncher _ env s true
  · intro b' h
    simp only [Browser.ConnectE, Browser.withRootScope_controlURL] at h ⊢
    rcases hws : env.getWSURL b.controlURL with e | u <;>
      simp only [hws] at h ⊢
    · rcases hl : env.launch with el | ul <;> simp only [hl] at h ⊢
      · simp at h
      · rcases hc : env.cdpNew (b.withRootScope uid).ctx ul with ec | c
        · rw [Browser.connectRest_cdpNew_error _ env s true ec (by simpa using hc)] at h
          simp at h
        · rcases hp : env.ep setDiscoverRequest s with ⟨r, s₁⟩
          rcases r with ed | jd
          · rw [Browser.connectRest_discover_error _ env s true c ed s₁
              (by simpa using hc) hp]
          · rw [Browser.connectRest_success _ env s true c jd s₁
              (by simpa using hc) hp]
    · rcases hc : env.cdpNew (b.withRootScope uid).ctx b.controlURL with ec | c
      · rw [Browser.connectRest_cdpNew_error _ env s false ec
          (by simpa [Browser.withRootScope_controlURL] using hc)] at h
        simp at h
      · rcases hp : env.ep setDiscoverRequest s with ⟨r, s₁⟩
        rcases r with ed | jd
        · rw [Browser.connectRest_discover_error _ env s false c ed s₁
            (by simpa [Browser.withRootScope_controlURL] using hc) hp]
        · rw [Browser.connectRest_success _ env s false c jd s₁
            (by simpa [Browser.withRootScope_controlURL] using hc) hp]
  · intro e eu he hl
    simp only [Browser.ConnectE, Browser.withRootScope_controlURL, he, hl]
  · intro u ec hu hc
    simp only [Browser.ConnectE, Browser.withRootScope_controlURL, hu]
    rw [Browser.connectRest_cdpNew_error _ env s false ec
      (by simpa [Browser.withRootScope_controlURL] using hc)]
  · intro e u ec he hl hc
    simp only [Browser.ConnectE, Browser.withRootScope_controlURL, he, hl]
    rw [Browser.connectRest_cdpNew_error _ env s true ec (by simpa using hc)]
  · intro u c ed s₁ hu hc hp
    simp only [Browser.ConnectE, Browser.withRootScope_controlURL, hu]
    rw [Browser.connectRest_discover_error _ env s false c ed s₁
      (by simpa [Browser.withRootScope_controlURL] using hc) hp]
  · intro e u c ed s₁ he hl hc hp
    simp only [Browser.ConnectE, Browser.withRootScope_controlURL, he, hl]
    rw [Browser.connectRest_discover_error _ env s true c ed s₁
      (by simpa using hc) hp]
  · intro u c jd s₁ hu hc hp
    simp only [Browser.ConnectE, Browser.withRootScope_controlURL, hu]
    rw [Browser.connectRest_success _ env s false c jd s₁
      (by simpa [Browser.withRootScope_controlURL] using hc) hp]
    simp [Browser.withRootScope_controlURL]
  · intro e u c jd s₁ he hl hc hp
    simp only [Browser.ConnectE, Browser.withRootScope_controlURL, he, hl]
    rw [Browser.connectRest_success _ env s true c jd s₁ (by simpa using hc) hp]

/-- A stub connect environment: the probe accepts any URL when `wsOK`,
the launcher yields a fixed URL, `cdp.New` yields client 1, and the
endpoint is the accepting stub. -/
def stubConnectEnv (wsOK : Bool) : ConnectEnv StubState :=
  { getWSURL := fun url =>
      if wsOK then .ok url else .error (.connect "unusable"),
    launch := .ok "ws://launched",
    cdpNew := fun _ _ => .ok 1,
    ep := stubEndpoint true }

/-- Witness for `connectE_resolution_and_discovery` against the stub
environment with a usable endpoint. -/
theorem connectE_resolution_and_discovery_witness :
    (Browser.new.ConnectE (stubConnectEnv true) 0 []).res =
      .ok { Browser.new.withRootScope 0 with
            client := some 1, event := some 0 } ∧
    (Browser.new.ConnectE (stubConnectEnv true) 0 []).usedLauncher = false := by
  have h := connectE_resolution_and_discovery Browser.new (stubConnectEnv true) 0 []
  exact ⟨h.2.2.2.2.2.2.2.2.1 "" 1 .null [] rfl rfl rfl, h.1 ⟨"", rfl⟩⟩

/-! ### C8 and C10: cancelling a registered event wait -/

/-- A pending wait resolves at the cancel step with a cancellation
outcome, keeping the last inspected event; everything scheduled after
the cancel is not consumed (the registration is released). -/
theorem runWait_cancel_resolves (filter : Event → Bool) (acc : Option Event)
    (pre post : List Step)
    (h : ∀ st ∈ pre, ∃ e, st = Step.publish e ∧ filter e = false) :
    runWait filter acc (pre ++ Step.cancel :: post) =
      some (lastInspected acc pre, some .cancellation) := by
  induction pre generalizing acc with
  | nil => rfl
  | cons st rest ih =>
    obtain ⟨e, rfl, hf⟩ := h st (List.mem_cons_self st rest)
    simp only [List.cons_append, runWait, hf, Bool.false_eq_true, if_false,
      lastInspected]
    exact ih (some e) (fun st' hst' => h st' (List.mem_cons_of_mem _ hst'))

/-- C8: invoking the cancel handle of a registered wait — after any
number of non-matching events and before any matching one — resolves
the wait accessor with a cancellation outcome (a non-nil error),
independent of whatever is published afterwards; the steps after the
cancel are not consumed, so the registration is released at that
point. -/
theorem waitEventE_cancel_unblocks (b : Browser) (filter : Event → Bool)
    (uid : Nat) (pre post : List Step)
    (h : ∀ st ∈ pre, ∃ e, st = Step.publish e ∧ filter e = false) :
    (b.WaitEventE filter uid).1 (pre ++ Step.cancel :: post) =
      some (lastInspected none pre, some Err.cancellation) :=
  runWait_cancel_resolves filter none pre post h

/-- Witness for `waitEventE_cancel_unblocks`: event `"A"` is published,
the wait for `"B"` is cancelled, and a matching `"B"` event arriving
later changes nothing. -/
theorem waitEventE_cancel_unblocks_witness :
    (Browser.new.WaitEventE (Method "B") 0).1
        ([Step.publish ⟨"A", JSON.null⟩] ++
          Step.cancel :: [Step.publish ⟨"B", JSON.null⟩]) =
      some (some ⟨"A", JSON.null⟩, some Err.cancellation) :=
  waitEventE_cancel_unblocks Browser.new (Method "B") 0
    [Step.publish ⟨"A", JSON.null⟩] [Step.publish ⟨"B", JSON.null⟩]
    (by
      intro st hst
      simp only [List.mem_singleton] at hst
      exact ⟨⟨"A", JSON.null⟩, hst, rfl⟩)

/-- After publishing `es`, the captured `event` variable holds the last
element of `es` (or the starting value when `es` is empty). -/
theorem lastInspected_publishes (acc : Option Event) (es : List Event) :
    lastInspected acc (es.map Step.publish) = es.getLast?.or acc := by
  induction es generalizing acc with
  | nil => rfl
  | cons e rest ih =>
    cases rest with
    | nil => simp [lastInspected, List.getLast?, Option.or]
    | cons e' rest' =>
      rw [List.map_cons, lastInspected, ih, List.getLast?_cons_cons]
      obtain ⟨x, hx⟩ := Option.isSome_iff_exists.mp
        (List.getLast?_isSome.mpr (List.cons_ne_nil e' rest'))
      rw [hx]
      rfl

/-- C10: when the wait is cancelled after at least one non-matching
event and before any matching one, the accessor returns the last
inspected (non-matching) event as a non-nil event value alongside the
cancellation error — not a nil event. -/
theorem waitEventE_cancel_returns_last_inspected (b : Browser)
    (filter : Event → Bool) (uid : Nat) (es : List Event)
    (post : List Step) (hne : es ≠ [])
    (h : ∀ e ∈ es, filter e = false) :
    (b.WaitEventE filter uid).1 (es.map Step.publish ++ Step.cancel :: post) =
      some (some (es.getLast hne), some Err.cancellation) := by
  have hpre : ∀ st ∈ es.map Step.publish,
      ∃ e, st = Step.publish e ∧ filter e = false := by
    intro st hst
    obtain ⟨e, he, rfl⟩ := List.mem_map.mp hst
    exact ⟨e, rfl, h e he⟩
  have h1 := runWait_cancel_resolves filter none (es.map Step.publish) post hpre
  rw [show (b.WaitEventE filter uid).1 = runWait filter none from rfl, h1,
    lastInspected_publishes, List.getLast?_eq_getLast es hne]
  rfl

/-- Witness for `waitEventE_cancel_returns_last_inspected`: one
non-matching `"A"` event, then the cancel. -/
theorem waitEventE_cancel_returns_last_inspected_witness :
    (Browser.new.WaitEventE (Method "B") 0).1
        ([⟨"A", JSON.null⟩].map Step.publish ++ Step.cancel :: []) =
      some (some ⟨"A", JSON.null⟩, some Err.cancellation) :=
  waitEventE_cancel_returns_last_inspected Browser.new (Method "B") 0
    [⟨"A", JSON.null⟩] [] (by simp)
    (by
      intro e he
      simp only [List.mem_singleton] at he
      subst he
      rfl)

/-! ### C9: convenience forms delegate to the explicit-failure forms -/

/-- C9: each convenience operation is a thin wrapper over its
explicit-failure core: `kit.E` turns a success into exactly the core's
success value and any failure into an abort carrying that error, and
`Connect`/`Close`/`Page`/`Pages`/`WaitEvent` return precisely the
wrapped result of `ConnectE`/`CloseE`/`PageE`/`PagesE`/`WaitEventE`
(the latter with the method-name filter), with no operation logic of
their own. -/
theorem convenience_forms_delegate :
    (∀ v : Page, kitE (.ok v) = ConvOutcome.value v) ∧
    (∀ e : Err, kitE (Except.error e : Except Err Page) = ConvOutcome.abort e) ∧
    (∀ (σ : Type) (b : Browser) (env : ConnectEnv σ) (uid : Nat) (s : σ),
      b.Connect env uid s = (kitE (b.ConnectE env uid s).res,
        (b.ConnectE env uid s).state, (b.ConnectE env uid s).calls,
        (b.ConnectE env uid s).usedLauncher)) ∧
    (∀ (σ : Type) (b : Browser) (ep : Endpoint σ) (s : σ) (cancelled : List Nat),
      b.Close ep s cancelled =
        (kitE (b.CloseE ep s cancelled).1, (b.CloseE ep s cancelled).2)) ∧
    (∀ (σ : Type) (b : Browser) (ep : Endpoint σ) (url : String) (s : σ),
      b.Page ep url s = (kitE (b.PageE ep url s).1, (b.PageE ep url s).2)) ∧
    (∀ (σ : Type) (b : Browser) (ep : Endpoint σ) (s : σ),
      b.Pages ep s = (kitE (b.PagesE ep s).1, (b.PagesE ep s).2)) ∧
    (∀ (b : Browser) (name : String) (uid : Nat) (sched : List Step),
      (b.WaitEvent name uid).2 = (b.WaitEventE (Method name) uid).2 ∧
      (b.WaitEvent name uid).1 sched =
        ((b.WaitEventE (Method name) uid).1 sched).map
          (fun r =>
            match r.2 with
            | some e => ConvOutcome.abort e
            | none => ConvOutcome.value r.1)) :=
  ⟨fun _ => rfl, fun _ => rfl, fun _ _ _ _ _ => rfl, fun _ _ _ _ _ => rfl,
   fun _ _ _ _ _ => rfl, fun _ _ _ _ => rfl,
   fun _ _ _ _ => ⟨rfl, rfl⟩⟩

end Rod
